import Mathlib

/-!
Verification of the iterative alternating-optimization engine of `cca_zoo`.

The Python source is shallowly embedded over exact rationals (`ℚ`): numpy
arrays become `Matrix (Fin n) (Fin p) ℚ` or `Fin p → ℚ`, Python exceptions
become an explicit `PyError` value threaded through `Except`, and external
collaborators (pyproximal operators, sklearn regressors, the LAPACK SVD) are
parameters constrained only by their documented contracts.  Quantities whose
Python computation goes through a floating-point square root are passed as
explicit rational parameters tied down by the hypotheses `sqrtn ^ 2 = n`
and the like, so that every definition stays computable and every concrete
evaluation goes through by `rfl`, `decide`, `simp` or `norm_num`.
-/

namespace CcaZoo

/-- Square matrices and rectangular matrices over the rationals, the
embedding of numpy 2-D arrays. -/
abbrev Mat (n p : ℕ) : Type := Matrix (Fin n) (Fin p) ℚ

/-- The Python exception taxonomy that the embedded code can surface.
`degenerateWeightsError` models the library's degenerate-weights failure,
`notFittedError` models sklearn's `NotFittedError`, `attributeError` and
`typeError` model the builtin exceptions reached when unset attributes are
touched, `keyError`/`valueError` model dictionary misses and bad values. -/
inductive PyError : Type where
  | degenerateWeightsError : PyError
  | notFittedError : PyError
  | attributeError : PyError
  | typeError : PyError
  | indexError : PyError
  | keyError (key : String) : PyError
  | valueError (msg : String) : PyError
deriving DecidableEq, Repr

/-- Python list indexing `l[i]` with negative-index wraparound:
`l[-1]` is the last element; an index out of `[-len, len)` is an
`IndexError`, modelled as `none`. -/
def pyGet {α : Type} (l : List α) (i : Int) : Option α :=
  if 0 ≤ i then l.get? i.toNat
  else if -i ≤ (l.length : Int) then l.get? (l.length - (-i).toNat)
  else none

/-- Squared Euclidean norm of a vector, the square of `np.linalg.norm`. -/
def normSq {p : ℕ} (v : Fin p → ℚ) : ℚ := ∑ j, v j ^ 2

/-- Entrywise L1 norm of a vector, `np.linalg.norm(v, ord=1)`. -/
def l1norm {p : ℕ} (v : Fin p → ℚ) : ℚ := ∑ j, |v j|

/-- Whether a weight vector is exactly all-zero, the exact-arithmetic
reading of "numerically all-zero". -/
def isAllZero {p : ℕ} (v : Fin p → ℚ) : Bool := decide (∀ j, v j = 0)

/-! ## C10: regression target of the elastic inner loop in SUMCOR mode

`_ElasticInnerLoop._update_view` (src/cca_zoo/models/_iterative/_elastic.py,
line 302) sets `target = self.scores[view_index - 1]` when `maxvar` is
false: a single view's score selected with Python indexing. -/

/-- Embeds `target = self.scores[view_index - 1]` from
`_ElasticInnerLoop._update_view` (the `maxvar=False` branch): the target
for view `viewIndex` is one stored score, selected with Python negative
indexing, so view 0 reads the last view's score. -/
def sumcorTarget {α : Type} (scores : List α) (viewIndex : ℕ) : Option α :=
  pyGet scores ((viewIndex : Int) - 1)

/-! ## C6: the two early-stop policies

`_ElasticInnerLoop._early_stop` (src/cca_zoo/models/_iterative/_elastic.py,
lines 338-343) compares `abs(track[-2] - track[-1])` with `self.tol`.
`_AltMaxVarLoop._early_stop` (src/cca_zoo/models/_iterative/_altmaxvar.py,
lines 164-169) compares the signed difference `track[-2] - track[-1]` with
the literal `1e-9`; the loop's `tol` attribute is not read here. -/

/-- The float literal `1e-9` hardcoded in `_AltMaxVarLoop._early_stop`,
embedded as the rational it denotes. -/
def hardTol : ℚ := 1 / 1000000000

/-- Embeds `_ElasticInnerLoop._early_stop`: converged exactly when the
absolute difference of the last two objective values is below the loop's
configured `tol`.  `prevObj`/`lastObj` stand for
`track["objective"][-2]`/`track["objective"][-1]`. -/
def elasticEarlyStop (tol prevObj lastObj : ℚ) : Bool :=
  decide (|prevObj - lastObj| < tol)

/-- Embeds `_AltMaxVarLoop._early_stop`: converged exactly when the signed
decrease of the objective falls below the literal `1e-9`.  The `tol`
argument is the loop's configured tolerance, which the source stores but
does not consult in this method. -/
def altMaxVarEarlyStop (tol prevObj lastObj : ℚ) : Bool :=
  decide (prevObj - lastObj < hardTol)

/-! ## C2: the PMD delta-search L1 budget

`SCCA_PMD._update_weights` (src/cca_zoo/linear/_iterative/_scca_pmd.py,
lines 57-76) forms `candidate = views[i].T @ target` with
`target = sum of the other views' scores`, clips negatives when
`positive[i]`, and hands the candidate to `_delta_search` together with
`self.t[i] = max(1, tau[i] * sqrt(p_i))`.  The square root is a float
computation, so it enters the embedding as the explicit parameter
`sqrtp`. -/

/-- Embeds `self.t = [max(1, x * y) for x, y in zip(self.tau, shape_sqrts)]`
from `SCCA_PMD._update_weights`: the L1 budget handed to the delta search,
with `sqrtp` standing for `np.sqrt(weight.shape[0])`. -/
def pmdThreshold (tau sqrtp : ℚ) : ℚ := max 1 (tau * sqrtp)

/-- Embeds the masked score aggregation of `SCCA_PMD._update_weights`:
`target = np.sum(scores[mask], axis=0)` with `mask = (arange != i)`. -/
def pmdMaskedTarget {m n k : ℕ} (scores : Fin m → Mat n k) (i : Fin m) : Mat n k :=
  ∑ j ∈ Finset.univ.filter (fun j => j ≠ i), scores j

/-- Embeds `new_weights = views[i].T @ target` from
`SCCA_PMD._update_weights`. -/
def pmdCandidate {n p k : ℕ} (Xi : Mat n p) (target : Mat n k) : Mat p k :=
  Xi.transpose * target

/-- Embeds `new_weights[new_weights < 0] = 0` (applied only when
`positive[i]` is set) from `SCCA_PMD._update_weights`. -/
def pmdClip {p k : ℕ} (positive : Bool) (W : Mat p k) : Mat p k :=
  if positive then Matrix.of (fun i j => max (W i j) 0) else W

/-- Modelled from the spec: `_delta_search` (imported from
`cca_zoo.linear._search`, not under src) bisects a soft-threshold level so
that the projected, L1/L2-normalized candidate has L1 norm at most the
given budget `t`.  Only this post-condition of the missing code is
modelled. -/
def deltaSearchPost {p : ℕ} (result : Fin p → ℚ) (t : ℚ) : Prop :=
  l1norm result ≤ t

/-! ## C3: orthonormality of the consensus target

`_AltMaxVarLoop._update_target` (src/cca_zoo/models/_iterative/_altmaxvar.py,
lines 134-137) sets `R = scores.sum(axis=0)`, `U, _, Vt = svd(R,
full_matrices=False)`, `G = U @ Vt`; `AltMaxVarLoop._get_target`
(src/cca_zoo/linear/_iterative/_altmaxvar.py, lines 118-125) does the same
on a gamma-blended aggregate.  The SVD routine is an external collaborator
(spec section 6), embedded as the contract `isTruncatedSVD`. -/

/-- Embeds `R = self.scores.sum(axis=0)` from
`_AltMaxVarLoop._update_target`. -/
def scoresAggregate {m n k : ℕ} (scores : Fin m → Mat n k) : Mat n k :=
  ∑ v, scores v

/-- Embeds the aggregate of `AltMaxVarLoop._get_target`: the gamma-blend
`gamma * scores.mean(0) + (1 - gamma) * G` once a previous target exists,
and the plain mean before that. -/
def getTargetBlend {n k : ℕ} (gamma : ℚ) (meanScores : Mat n k)
    (Gprev : Option (Mat n k)) : Mat n k :=
  match Gprev with
  | none => meanScores
  | some G => gamma • meanScores + (1 - gamma) • G

/-- The contract of the collaborator `np.linalg.svd(R, full_matrices=False)`
when the row count is at least the column count: `R = U @ diag(s) @ Vt`
with `U` having orthonormal columns and `Vt` orthogonal. -/
def isTruncatedSVD {n k : ℕ} (R U : Mat n k) (s : Fin k → ℚ) (Vt : Mat k k) : Prop :=
  R = U * Matrix.diagonal s * Vt ∧ U.transpose * U = 1 ∧ Vt.transpose * Vt = 1

/-- Embeds `G = U @ Vt` from `_AltMaxVarLoop._update_target` and
`AltMaxVarLoop._get_target`. -/
def updateTargetG {n k : ℕ} (U : Mat n k) (Vt : Mat k k) : Mat n k := U * Vt

/-! ## C7: the proximal-operator dispatch

`_proximal_operators` (src/cca_zoo/linear/_iterative/_altmaxvar.py,
lines 223-229) looks the kind tag up in `PROXIMAL_OPERATORS`, filters the
keyword parameters through `PROXIMAL_PARAMS[tag]`, falls back to calling a
callable argument, and otherwise falls off the end of the function —
Python then returns `None`.  The pyproximal constructors themselves are
external; construction is embedded as the tag/parameter pair handed to
them. -/

/-- The keys of the `PROXIMAL_OPERATORS` dict (lines 188-202 of
src/cca_zoo/linear/_iterative/_altmaxvar.py). -/
def proximalOperatorKeys : List String :=
  ["L0", "L0Ball", "L1", "L1Ball", "L2", "L21", "L21_plus_L1",
   "Nuclear", "NuclearBall", "Log", "Log1", "Euclidean", "EuclideanBall"]

/-- The `PROXIMAL_PARAMS` dict (lines 204-220): required named parameters
per kind.  Note that the registered kind `"EuclideanBall"` has no entry
here. -/
def proximalParamsTable : List (String × List String) :=
  [("Dummy", []), ("L0", ["sigma"]), ("L0Ball", ["radius"]), ("L1", ["sigma"]),
   ("L1Ball", ["n", "radius"]), ("L2", ["sigma"]), ("L21", ["ndim", "sigma"]),
   ("L21_plus_L1", ["sigma", "rho"]), ("TV", ["sigma", "isotropic", "dims"]),
   ("Nuclear", ["dim", "sigma"]), ("NuclearBall", ["dims", "radius"]),
   ("Log", ["sigma", "gamma"]), ("Log1", ["sigma", "delta"]),
   ("Euclidean", ["sigma"]), ("TVL1", ["sigma", "shape", "l1_ratio"])]

/-- `PROXIMAL_PARAMS[tag]`, with `none` modelling a `KeyError`. -/
def lookupProximalParams (s : String) : Option (List String) :=
  (proximalParamsTable.find? (fun kv => kv.1 == s)).map (fun kv => kv.2)

/-- Embeds the dict comprehension
`{k: params[k] for k in params if k in PROXIMAL_PARAMS[proximal]}`: the
`PROXIMAL_PARAMS[proximal]` lookup sits inside the per-key condition, so
it is evaluated once per iterated key — an empty `params` dict never
performs it, and a missing table entry raises `KeyError` only when at
least one key is iterated. -/
def filterProximalParams (s : String) :
    List (String × ℚ) → Except PyError (List (String × ℚ))
  | [] => .ok []
  | kv :: rest =>
      match lookupProximalParams s with
      | none => .error (.keyError s)
      | some allowed =>
          match filterProximalParams s rest with
          | .error e => .error e
          | .ok tail => .ok (if allowed.contains kv.1 then kv :: tail else tail)

/-- The `proximal` argument of `_proximal_operators`: a kind tag string or
a user-supplied callable. -/
inductive ProxArg : Type where
  | tag (s : String) : ProxArg
  | callableCtor : ProxArg

/-- The value `_proximal_operators` produces when it does construct an
operator: a registered pyproximal constructor applied to the (possibly
filtered) parameters, or the user callable applied to the parameters. -/
inductive ProxBuilt : Type where
  | registered (tag : String) (params : List (String × ℚ)) : ProxBuilt
  | fromCallable (params : List (String × ℚ)) : ProxBuilt

/-- Embeds `_proximal_operators(proximal, filter_params=True, **params)`:
`Except` carries the Python exception, and the payload `Option` is the
returned object — `none` is Python's implicit `None` return when the tag
is neither registered nor callable. -/
def proximalOperatorsDispatch (proximal : ProxArg) (filterParams : Bool)
    (params : List (String × ℚ)) : Except PyError (Option ProxBuilt) :=
  match proximal with
  | .tag s =>
      if s ∈ proximalOperatorKeys then
        if filterParams then
          match filterProximalParams s params with
          | .error e => .error e
          | .ok filtered => .ok (some (.registered s filtered))
        else .ok (some (.registered s params))
      else .ok none
  | .callableCtor => .ok (some (.fromCallable params))

/-! ## C8: the AltMaxVar initialization schemes

`AltMaxVar._initialization` (src/cca_zoo/models/_iterative/_altmaxvar.py,
lines 90-106).  The `"random"` branch draws
`random_state.normal(0, 1, size=(view.shape[0]))` — a 1-D array of shape
`(n,)` — while `"uniform"` builds `np.ones((n, latent_dims))`; the
`"pls"`/`"cca"` branches delegate to the external `rCCA` solver, whose
scores have shape `(n, latent_dims)`.  Unknown schemes raise
`ValueError("Initialization {type} not supported. ...")` — the message is
a plain string literal, not an f-string.  The embedding records the shape
of each per-view initial score array; the sampling distribution itself is
not modelled. -/

/-- The exact message of the `ValueError` raised for unknown schemes: the
`\x7btype\x7d` placeholder is literal text in the source (the f-string
prefix is missing), so the offending scheme name never appears. -/
def unknownInitializationMessage : String :=
  "Initialization \x7btype\x7d not supported. Pass a generator implementing this method"

/-- Embeds the shape behaviour of `AltMaxVar._initialization`: for each
scheme, the numpy shape of every per-view initial score array, given the
per-view row counts and `latent_dims`. -/
def initializationShapes (scheme : String) (viewRows : List ℕ)
    (latentDims : ℕ) : Except PyError (List (List ℕ)) :=
  if scheme == "random" then .ok (viewRows.map (fun nrows => [nrows]))
  else if scheme == "uniform" then .ok (viewRows.map (fun nrows => [nrows, latentDims]))
  else if scheme == "pls" then .ok (viewRows.map (fun nrows => [nrows, latentDims]))
  else if scheme == "cca" then .ok (viewRows.map (fun nrows => [nrows, latentDims]))
  else .error (.valueError unknownInitializationMessage)

/-! ## C9: transform before fit

`_CCA_Base.transform` (src/cca_zoo/models/cca_base.py, lines 46-60)
computes `(view - self.view_means[i]) @ self.weights_list[i]` inside its
per-view loop, without any fitted-check: `__init__` sets
`self.weights_list = None` but never sets `self.view_means`, so a pre-fit
call with at least one view dies on the first iteration's attribute
access, while a pre-fit call with zero views runs zero iterations and
returns `[]`.
`KCCA.transform` (src/cca_zoo/models/_multiview/_mcca.py, lines 182-195)
instead opens with `check_is_fitted(self, attributes=["weights"])`, which
raises sklearn's `NotFittedError`. -/

/-- The attribute state of a `_CCA_Base` estimator: `weightsList` is the
`weights_list` attribute (set to `None` in `__init__`), `viewMeans` is the
`view_means` attribute, which only `demean_data` (run during fit) creates
— `none` models the attribute being absent. -/
structure CCABaseState (n p k : ℕ) : Type where
  weightsList : Option (List (Mat p k))
  viewMeans : Option (List (Fin p → ℚ))

/-- The state right after `_CCA_Base.__init__`, before any fit. -/
def unfittedCCABase (n p k : ℕ) : CCABaseState n p k := ⟨none, none⟩

/-- Row-broadcast subtraction `view - self.view_means[i]`. -/
def subRowMean {n p : ℕ} (view : Mat n p) (mean : Fin p → ℚ) : Mat n p :=
  Matrix.of fun i j => view i j - mean j

/-- One iteration of the `for` loop of `_CCA_Base.transform`, evaluating
`(view - self.view_means[view_index]) @ self.weights_list[view_index]` in
Python's order: the `view_means` attribute access (an `AttributeError`
when the attribute was never created), its indexing, then the
`weights_list` indexing (`None[i]` is a `TypeError` on the `None` left by
`__init__`). -/
def baseTransformView {n p k : ℕ} (st : CCABaseState n p k) (view : Mat n p)
    (viewIndex : ℕ) : Except PyError (Mat n k) :=
  match st.viewMeans with
  | none => .error .attributeError
  | some means =>
      match means.get? viewIndex with
      | none => .error .indexError
      | some m =>
          match st.weightsList with
          | none => .error .typeError
          | some ws =>
              match ws.get? viewIndex with
              | none => .error .indexError
              | some w => .ok (subRowMean view m * w)

/-- The `for i, (view, view_index) in enumerate(zip(views, view_indices))`
loop of `_CCA_Base.transform` from position `i` onwards: the attribute
accesses happen inside the loop body, so a call that iterates zero views
touches no attribute at all. -/
def baseTransformFrom {n p k : ℕ} (st : CCABaseState n p k) :
    List (Mat n p) → ℕ → Except PyError (List (Mat n k))
  | [], _ => .ok []
  | view :: rest, i =>
      match baseTransformView st view i with
      | .error e => .error e
      | .ok t =>
          match baseTransformFrom st rest (i + 1) with
          | .error e => .error e
          | .ok ts => .ok (t :: ts)

/-- Embeds `_CCA_Base.transform` with the default
`view_indices = np.arange(len(views))`: transform each view with its own
index, accumulating the transformed views. -/
def baseTransform {n p k : ℕ} (st : CCABaseState n p k)
    (views : List (Mat n p)) : Except PyError (List (Mat n k)) :=
  baseTransformFrom st views 0

/-- Embeds `KCCA.transform`: `check_is_fitted(self, attributes=["weights"])`
raises `NotFittedError` when the `weights` attribute is absent; afterwards
each test kernel (computed by the external `pairwise_kernels`, passed here
as input) is transposed and multiplied by the stored dual weights. -/
def kccaTransform {nTrain nTest k : ℕ} (weights : Option (List (Mat nTrain k)))
    (kernels : List (Mat nTrain nTest)) : Except PyError (List (Mat nTest k)) :=
  match weights with
  | none => .error .notFittedError
  | some ws => .ok ((kernels.zip ws).map (fun kw => kw.1.transpose * kw.2))

/-! ## C4: the SUMCOR rescaling of the elastic inner loop

`_ElasticInnerLoop._update_view` (src/cca_zoo/models/_iterative/_elastic.py,
lines 292-314), `maxvar=False` branch: the solver output `w` (the external
elastic-net/ridge regressor's coefficients, a parameter here) passes
through `_check_converged_weights` and is then divided by
`norm(views[i] @ w) / sqrt(n)`.  The two float scalars `norm(views[i] @ w)`
and `sqrt(n)` enter the embedding as rational parameters `normXw` and
`sqrtn` tied down by `normXw ^ 2 = normSq (X.mulVec w)` and
`sqrtn ^ 2 = n`. -/

/-- Modelled from the spec: `_check_converged_weights` (imported from
`cca_zoo.utils`, not under src) fails with a degenerate-weights error when
the unscaled weight vector is numerically all-zero. -/
def checkConvergedWeights {p : ℕ} (w : Fin p → ℚ) : Except PyError Unit :=
  if isAllZero w then .error .degenerateWeightsError else .ok ()

/-- Embeds the SUMCOR tail of `_ElasticInnerLoop._update_view`: check the
solver output for degeneracy, then rescale it by
`norm(X @ w) / sqrt(n)`. -/
def updateViewSumcor {n p : ℕ} (X : Mat n p) (w : Fin p → ℚ)
    (normXw sqrtn : ℚ) : Except PyError (Fin p → ℚ) :=
  match checkConvergedWeights w with
  | .error e => .error e
  | .ok _ => .ok (fun j => w j / (normXw / sqrtn))

/-- The concrete 1×2 view `[[1, -1]]` used in evaluations: the solver
output `(1, 1)` lies in its kernel. -/
def cxViewX : Mat 1 2 := Matrix.of fun _ j => if j = 0 then 1 else -1

/-- The concrete 4×1 view with a single nonzero entry used in witnesses. -/
def cxView4 : Mat 4 1 := Matrix.of fun i _ => if i = 0 then 1 else 0

/-! ## C5: NaN handling in the AltMaxVar inner iteration

`_AltMaxVarLoop._inner_iteration` (src/cca_zoo/models/_iterative/_altmaxvar.py,
lines 126-132) recomputes the target and then, for each view, runs
`self._update_view(views, i)` only `if np.isnan(self.scores).sum() == 0`;
nothing is raised in the NaN case.  NaN is a float phenomenon with no
rational counterpart, so the test `np.isnan(self.scores).sum() != 0` is
embedded as the state predicate `hasNaN`; the target recompute and the
per-view updates (which go through the externally supplied `view_regs`)
are likewise parameters. -/

/-- Embeds `_AltMaxVarLoop._inner_iteration`: update the target, then for
each view index in order either perform the per-view update or — when the
scores contain NaN — silently skip it.  The return type records that this
code path can raise nothing. -/
def altInnerIteration {σ : Type} (hasNaN : σ → Bool) (updateTarget : σ → σ)
    (updateView : σ → ℕ → σ) (nviews : ℕ) (s : σ) : σ :=
  (List.range nviews).foldl
    (fun st i => if hasNaN st then st else updateView st i) (updateTarget s)

/-! ## C1: the AltMaxVar proximal-gradient sub-loops

`AltMaxVarLoop.training_step` (src/cca_zoo/linear/_iterative/_altmaxvar.py,
lines 137-163).  Two details of the source matter:

* `converged = False` is initialized once, before the loop over views, and
  every view's `while t < self.T and not converged` reads the same flag;
* `self.weights[i] -= ...` mutates the ndarray in place, and
  `prev_weights` references that same object, so at the `np.allclose`
  check `prev_weights` always holds the current gradient-stepped
  (pre-prox) values — the first loop pass is the only one where
  `prev_weights is None` skips the check.

The proximal operators are external pyproximal objects, passed as
function parameters `prox`. -/

/-- The default `rtol` of `np.allclose`. -/
def npRtol : ℚ := 1 / 100000

/-- The default `atol` of `np.allclose`. -/
def npAtol : ℚ := 1 / 100000000

/-- `np.allclose(A, B)`: every entry satisfies
`|A - B| <= atol + rtol * |B|`. -/
def npAllclose {n p : ℕ} (rtol atol : ℚ) (A B : Mat n p) : Bool :=
  decide (∀ i j, |A i j - B i j| ≤ atol + rtol * |B i j|)

/-- Embeds the gradient step
`self.weights[i] -= learning_rate * (view.T @ (view @ self.weights[i] - self.G))`
of `AltMaxVarLoop.training_step`. -/
def altGradStep {n p k : ℕ} (view : Mat n p) (G : Mat n k) (lr : ℚ)
    (w : Mat p k) : Mat p k :=
  w - lr • (view.transpose * (view * w - G))

/-- Embeds one view's `while t < self.T and not converged` sub-loop of
`AltMaxVarLoop.training_step`, by recursion on the remaining budget
`T - t`.  Each pass gradient-steps the weights, applies the proximal
operator, and — from the second pass on (`prevSet`) — stops when the
post-prox weights are `np.allclose` to the gradient-stepped pre-prox
values, which is what `prev_weights` holds at the check because the
in-place `-=` mutated the array it references.  Returns the final weights
and the `converged` flag (left `false` when the budget runs out). -/
def altSubLoop {n p k : ℕ} (view : Mat n p) (G : Mat n k) (lr : ℚ)
    (prox : Mat p k → ℚ → Mat p k) : ℕ → Bool → Mat p k → Mat p k × Bool
  | 0, _, w => (w, false)
  | Nat.succ r, prevSet, w =>
      let g := altGradStep view G lr w
      let w2 := prox g lr
      if prevSet && npAllclose npRtol npAtol w2 g then (w2, true)
      else altSubLoop view G lr prox r true w2

/-- One view's data in the sweep of `AltMaxVarLoop.training_step`: its
view matrix, its proximal operator and its current weights. -/
structure AltViewItem (n p k : ℕ) : Type where
  view : Mat n p
  prox : Mat p k → ℚ → Mat p k
  w : Mat p k

/-- One step of the `for i, view in enumerate(batch["views"])` sweep: when
the shared `converged` flag is already set the `while` condition is false
immediately, so the view's weights pass through unchanged; otherwise its
sub-loop runs with a fresh `prev_weights = None`. -/
def altSweepStep {n p k : ℕ} (lr : ℚ) (T : ℕ) (G : Mat n k)
    (acc : List (Mat p k) × Bool) (item : AltViewItem n p k) :
    List (Mat p k) × Bool :=
  if acc.2 then (acc.1 ++ [item.w], true)
  else
    let r := altSubLoop item.view G lr item.prox T false item.w
    (acc.1 ++ [r.1], r.2)

/-- Embeds the per-view sweep of `AltMaxVarLoop.training_step` (after the
target `G` has been recomputed): the single `converged` flag is threaded
left to right through all views. -/
def altTrainingStepSweep {n p k : ℕ} (lr : ℚ) (T : ℕ)
    (items : List (AltViewItem n p k)) (G : Mat n k) :
    List (Mat p k) × Bool :=
  items.foldl (altSweepStep lr T G) ([], false)

/-- The identity proximal map: pyproximal's `L1` operator with
`sigma = 0` (the AltMaxVar default `tau = 0`) soft-thresholds by zero,
which changes nothing. -/
def proxIdentity {p k : ℕ} : Mat p k → ℚ → Mat p k := fun w _ => w

/-- The constant 1×1 matrix, used for concrete evaluations. -/
def cxc (q : ℚ) : Mat 1 1 := Matrix.of fun _ _ => q

/-! # Theorems -/

/-- C10: in the elastic inner loop with `maxvar=False`, the regression
target for view `i` is exactly the single stored score of view `i - 1`
taken cyclically (Python index wraparound), so view 0 regresses on the
last view's score and no aggregate of other views is ever formed. -/
theorem sumcorTarget_is_cyclic_predecessor {α : Type} (scores : List α) (i : ℕ)
    (hlen : 0 < scores.length) (hi : i < scores.length) :
    sumcorTarget scores i = scores.get? ((i + scores.length - 1) % scores.length) := by
  cases i with
  | zero =>
      have h1 : scores.length - 1 < scores.length := Nat.sub_lt hlen Nat.one_pos
      have hmod : (0 + scores.length - 1) % scores.length = scores.length - 1 := by
        simpa using Nat.mod_eq_of_lt h1
      rw [hmod]
      unfold sumcorTarget pyGet
      rw [if_neg (by norm_num), if_pos (by push_cast; omega)]
      rw [show (-(((0 : ℕ) : Int) - 1)).toNat = 1 by norm_num]
  | succ j =>
      have hj : j < scores.length := Nat.lt_of_succ_lt hi
      have hcast : ((j + 1 : ℕ) : Int) - 1 = (j : Int) := by push_cast; ring
      have hmod : (j + 1 + scores.length - 1) % scores.length = j := by
        have h2 : j + 1 + scores.length - 1 = j + scores.length := by omega
        rw [h2, Nat.add_mod_right]
        exact Nat.mod_eq_of_lt hj
      rw [hmod]
      unfold sumcorTarget pyGet
      rw [hcast, if_pos (Int.natCast_nonneg j)]
      rw [Int.toNat_natCast]

/-- Witness for C10 at a concrete input: with three stored scores, view 0's
target is the last view's score. -/
theorem sumcorTarget_is_cyclic_predecessor_witness :
    sumcorTarget [(10 : ℚ), 20, 30] 0 = [(10 : ℚ), 20, 30].get? ((0 + 3 - 1) % 3) :=
  sumcorTarget_is_cyclic_predecessor [(10 : ℚ), 20, 30] 0 (by simp) (by simp)

/-- C6 counterexample: with configured tolerance `tol = 1` and an objective
decrease of `1/2`, the claim says the AltMaxVar loop declares convergence
(`1/2 < tol`), but `_AltMaxVarLoop._early_stop` compares against the
hardcoded `1e-9` and does not stop. -/
theorem altMaxVarEarlyStop_ignores_tol_counterexample :
    altMaxVarEarlyStop 1 1 (1 / 2) = false ∧ ((1 : ℚ) - 1 / 2 < 1) := by
  constructor
  · simp only [altMaxVarEarlyStop, decide_eq_false_iff_not]
    norm_num [hardTol]
  · norm_num

/-- C6 amended: the ElasticCCA inner loop declares convergence exactly when
the absolute objective difference is below the caller-supplied `tol`; the
AltMaxVar inner loop declares convergence exactly when the signed decrease
falls below the hardcoded literal `1e-9`, and its result is independent of
the configured `tol`. -/
theorem earlyStop_policies :
    ∀ tol tol' prevObj lastObj : ℚ,
      (elasticEarlyStop tol prevObj lastObj = true ↔ |prevObj - lastObj| < tol) ∧
      (altMaxVarEarlyStop tol prevObj lastObj = altMaxVarEarlyStop tol' prevObj lastObj) ∧
      (altMaxVarEarlyStop tol prevObj lastObj = true ↔ prevObj - lastObj < hardTol) := by
  intro tol tol' prevObj lastObj
  refine ⟨?_, rfl, ?_⟩
  · simp [elasticEarlyStop]
  · simp [altMaxVarEarlyStop]

/-- C2 counterexample: with `tau = 1/10` and `sqrt(p) = 2` (so
`tau * sqrt(p) = 1/5`), the L1 budget handed to the delta search is `1`,
not `tau * sqrt(p)`: the bound does not scale down to 0 with `tau`. -/
theorem pmdThreshold_counterexample :
    pmdThreshold (1 / 10) 2 = 1 ∧ (1 : ℚ) ≠ 1 / 10 * 2 := by
  constructor
  · unfold pmdThreshold
    rw [max_eq_left (by norm_num)]
  · norm_num

/-- C2 amended: the L1 budget of the PMD delta search is
`max(1, tau * sqrt(p))`: it is never below 1, equals `tau * sqrt(p)`
exactly when that product is at least 1, and saturates at 1 for smaller
`tau`; the candidate's negative entries are clipped to zero when
`positive` is set and left untouched otherwise. -/
theorem pmdThreshold_clamped :
    (∀ tau sqrtp : ℚ,
      1 ≤ pmdThreshold tau sqrtp ∧
      (1 ≤ tau * sqrtp → pmdThreshold tau sqrtp = tau * sqrtp) ∧
      (tau * sqrtp ≤ 1 → pmdThreshold tau sqrtp = 1)) ∧
    (∀ {p k : ℕ} (W : Mat p k) (i : Fin p) (j : Fin k),
      0 ≤ pmdClip true W i j ∧ pmdClip false W = W) := by
  constructor
  · intro tau sqrtp
    refine ⟨le_max_left _ _, fun h => max_eq_right h, fun h => max_eq_left h⟩
  · intro p k W i j
    constructor
    · simp only [pmdClip, if_pos, Matrix.of_apply]
      exact le_max_right _ _
    · simp [pmdClip]

/-- Witness for C2 at concrete inputs: with `tau = 2`, `sqrt(p) = 3` the
budget is `2 * 3`, and it is at least 1. -/
theorem pmdThreshold_clamped_witness :
    1 ≤ pmdThreshold 2 3 ∧ pmdThreshold 2 3 = 2 * 3 :=
  ⟨(pmdThreshold_clamped.1 2 3).1, (pmdThreshold_clamped.1 2 3).2.1 (by norm_num)⟩

/-- C3: whenever `(U, s, Vt)` is a truncated SVD of the aggregate of the
per-view scores (the collaborator contract of `np.linalg.svd` with
`full_matrices=False`, available whenever the shared row count is at least
the number of latent dimensions), the recomputed consensus target
`G = U @ Vt` has exactly orthonormal columns: `G.T @ G = I`.  This holds
at every recompute, hence at every outer iteration. -/
theorem consensus_target_orthonormal :
    ∀ {m n k : ℕ} (scores : Fin m → Mat n k) (U : Mat n k) (s : Fin k → ℚ)
      (Vt : Mat k k), isTruncatedSVD (scoresAggregate scores) U s Vt →
      (updateTargetG U Vt).transpose * updateTargetG U Vt = 1 := by
  intro m n k scores U s Vt h
  obtain ⟨-, hU, hV⟩ := h
  unfold updateTargetG
  rw [Matrix.transpose_mul, Matrix.mul_assoc, ← Matrix.mul_assoc U.transpose U Vt,
    hU, Matrix.one_mul, hV]

/-- Witness for C3 at a concrete input: one view with the 1×1 identity
score matrix and the trivial SVD `U = 1`, `s = 1`, `Vt = 1`. -/
theorem consensus_target_orthonormal_witness :
    (updateTargetG (1 : Mat 1 1) (1 : Mat 1 1)).transpose * updateTargetG 1 1 = 1 :=
  consensus_target_orthonormal (fun _ : Fin 1 => (1 : Mat 1 1)) 1 (fun _ => 1) 1
    (by refine ⟨?_, ?_, ?_⟩ <;> simp [scoresAggregate, isTruncatedSVD])

/-- C7 counterexample: a kind tag that is neither registered nor callable
is not rejected with an error — `_proximal_operators` silently returns
`None` (Python's implicit return). -/
theorem proximal_dispatch_counterexample :
    proximalOperatorsDispatch (.tag "NotAProximal") true [] = .ok none := rfl

/-- When the table lookup succeeds, the per-key comprehension is plain
filtering by the allowed parameter set. -/
lemma filterProximalParams_ok {s : String} {allowed : List String}
    (h : lookupProximalParams s = some allowed) :
    ∀ params : List (String × ℚ),
      filterProximalParams s params
        = .ok (params.filter (fun kv => allowed.contains kv.1)) := by
  intro params
  induction params with
  | nil => rfl
  | cons kv rest ih =>
      rw [filterProximalParams, h, ih, List.filter_cons]

/-- C7 amended: for a tag outside the registry (a string is never
callable) the dispatch silently yields no operator; the registered tag
`"EuclideanBall"`, which is missing from `PROXIMAL_PARAMS`, crashes with a
`KeyError` during parameter filtering as soon as at least one keyword
parameter is iterated — with no keyword parameters the comprehension
never performs the lookup and the operator is constructed with none; and
an ordinary registered tag such as `"L1"` constructs the operator with
the parameters filtered down to its registered parameter set. -/
theorem proximal_dispatch_behavior :
    (∀ (s : String) (params : List (String × ℚ)), s ∉ proximalOperatorKeys →
        proximalOperatorsDispatch (.tag s) true params = .ok none) ∧
    (∀ (kv : String × ℚ) (rest : List (String × ℚ)),
        proximalOperatorsDispatch (.tag "EuclideanBall") true (kv :: rest)
          = .error (.keyError "EuclideanBall")) ∧
    (proximalOperatorsDispatch (.tag "EuclideanBall") true []
        = .ok (some (.registered "EuclideanBall" []))) ∧
    (∀ params : List (String × ℚ),
        proximalOperatorsDispatch (.tag "L1") true params
          = .ok (some (.registered "L1"
              (params.filter (fun kv => ["sigma"].contains kv.1))))) := by
  refine ⟨?_, fun kv rest => rfl, rfl, ?_⟩
  · intro s params h
    simp [proximalOperatorsDispatch, h]
  · intro params
    have hlook : lookupProximalParams "L1" = some ["sigma"] := rfl
    have hfil : filterProximalParams "L1" params
        = .ok (params.filter (fun kv => (["sigma"] : List String).contains kv.1)) :=
      filterProximalParams_ok hlook params
    show (match filterProximalParams "L1" params with
      | .error e => (.error e : Except PyError (Option ProxBuilt))
      | .ok filtered => .ok (some (.registered "L1" filtered))) = _
    rw [hfil]

/-- Witness for C7 at a concrete input: an unregistered tag yields
`.ok none`. -/
theorem proximal_dispatch_behavior_witness :
    proximalOperatorsDispatch (.tag "Frobnicate") true [] = .ok none :=
  proximal_dispatch_behavior.1 "Frobnicate" [] (by decide)

/-- C8: evaluated at the failing input (scheme `"random"`, two views of 5
rows, `latent_dims = 2`), the embedded `AltMaxVar._initialization` returns
per-view scores of shape `(5,)` — the latent dimension is dropped — not
the documented `(5, 2)`; and for unknown schemes it raises a `ValueError`
whose message is one fixed literal (the f-string prefix is missing), so
the message cannot name the offending value: two different bad schemes
produce identical errors. -/
theorem altmaxvar_initialization_bug :
    initializationShapes "random" [5, 5] 2 = .ok [[5], [5]] ∧
    ([[5], [5]] : List (List ℕ)) ≠ [[5, 2], [5, 2]] ∧
    initializationShapes "schemeA" [5, 5] 2
      = .error (.valueError unknownInitializationMessage) ∧
    initializationShapes "schemeB" [5, 5] 2
      = initializationShapes "schemeA" [5, 5] 2 := by
  exact ⟨rfl, by decide, rfl, rfl⟩

/-- C9 counterexample: on the state left by `__init__`, `transform` fails
with `AttributeError` (the `view_means` attribute access), which is not
the `NotFittedError` the claim promises for every estimator. -/
theorem base_transform_before_fit_counterexample :
    baseTransform (unfittedCCABase 1 1 1) [(0 : Mat 1 1)] = .error .attributeError ∧
    PyError.attributeError ≠ PyError.notFittedError := ⟨rfl, by decide⟩

/-- C9 amended: `KCCA.transform` raises `NotFittedError` before fit (its
`check_is_fitted` runs before the loop, so even with zero views), but the
generic `_CCA_Base.transform` performs no fitted-check: a pre-fit call
with at least one view fails with `AttributeError` on the first
iteration's `view_means` access, while a pre-fit call with zero views
runs zero iterations and returns `[]` with no error at all; after a fit
has stored means and weights, it applies the stored per-view centering
and then multiplies by the stored weights. -/
theorem transform_fitted_check :
    (∀ {n p k : ℕ} (views : List (Mat n p)), views ≠ [] →
        baseTransform (unfittedCCABase n p k) views = .error .attributeError) ∧
    (∀ {n p k : ℕ},
        baseTransform (unfittedCCABase n p k) ([] : List (Mat n p)) = .ok []) ∧
    (∀ {nTrain nTest k : ℕ} (kernels : List (Mat nTrain nTest)),
        (kccaTransform none kernels : Except PyError (List (Mat nTest k)))
          = .error .notFittedError) ∧
    (∀ {n p k : ℕ} (v : Mat n p) (m : Fin p → ℚ) (w : Mat p k),
        baseTransform ⟨some [w], some [m]⟩ [v] = .ok [subRowMean v m * w]) := by
  refine ⟨?_, rfl, fun _ => rfl, fun _ _ _ => rfl⟩
  intro n p k views h
  cases views with
  | nil => exact absurd rfl h
  | cons v rest => rfl

/-- Witness for C9 at a concrete input: one pre-fit view triggers the
`AttributeError`. -/
theorem transform_fitted_check_witness :
    baseTransform (unfittedCCABase 1 1 1) [cxc 3] = .error .attributeError :=
  transform_fitted_check.1 [cxc 3] (List.cons_ne_nil _ _)

/-- C4 counterexample: with view `[[1, -1]]` (one sample, two features)
and solver output `(1, 1)`, the degeneracy check passes (the weights are
not all-zero) yet `X @ w = 0`, so `normXw = 0` is the value the code's
`np.linalg.norm` computes and `sqrtn = 1` matches `n = 1`; the update
returns normally and the rescaled weight's projected squared norm is `0`,
not `n = 1` — the promised `‖X @ w‖ = sqrt(n)` fails. -/
theorem sumcor_rescale_counterexample :
    updateViewSumcor cxViewX (fun _ => (1 : ℚ)) 0 1
      = .ok (fun _ => (1 : ℚ) / (0 / 1)) ∧
    (0 : ℚ) ^ 2 = normSq (cxViewX.mulVec (fun _ => (1 : ℚ))) ∧
    (1 : ℚ) ^ 2 = ((1 : ℕ) : ℚ) ∧
    normSq (cxViewX.mulVec (fun _ => (1 : ℚ) / (0 / 1))) ≠ ((1 : ℕ) : ℚ) := by
  have hz : checkConvergedWeights (fun _ : Fin 2 => (1 : ℚ)) = .ok () := by
    simp [checkConvergedWeights, isAllZero]
  refine ⟨by simp [updateViewSumcor, hz], ?_, by norm_num, ?_⟩
  · simp [normSq, Matrix.mulVec, Matrix.dotProduct, cxViewX, Fin.sum_univ_two, Fin.sum_univ_one]
  · simp [normSq, Matrix.mulVec, Matrix.dotProduct, cxViewX, Fin.sum_univ_two, Fin.sum_univ_one]

/-- C4 amended: in SUMCOR mode the update raises the degenerate-weights
error exactly when the unscaled solver output is all-zero; and whenever
the solver output is not all-zero **and** its projected score `X @ w` has
nonzero norm, the update returns a weight whose projected squared norm is
exactly `n` — i.e. `‖X @ w‖ = sqrt(n)`.  When `X @ w` vanishes on a
nonzero `w`, the division degenerates and the promise fails (see the
counterexample). -/
theorem sumcor_update_amended :
    (∀ {n p : ℕ} (X : Mat n p) (w : Fin p → ℚ) (normXw sqrtn : ℚ),
        isAllZero w = true →
        updateViewSumcor X w normXw sqrtn = .error .degenerateWeightsError) ∧
    (∀ {n p : ℕ} (X : Mat n p) (w : Fin p → ℚ) (normXw sqrtn : ℚ),
        isAllZero w = false → normXw ≠ 0 →
        normXw ^ 2 = normSq (X.mulVec w) → sqrtn ^ 2 = (n : ℚ) →
        ∃ w', updateViewSumcor X w normXw sqrtn = .ok w' ∧
          normSq (X.mulVec w') = (n : ℚ)) := by
  constructor
  · intro n p X w normXw sqrtn hz
    simp [updateViewSumcor, checkConvergedWeights, hz]
  · intro n p X w normXw sqrtn hz hnz hnorm hsq
    have hupdate : updateViewSumcor X w normXw sqrtn
        = .ok (fun j => w j / (normXw / sqrtn)) := by
      simp [updateViewSumcor, checkConvergedWeights, hz]
    refine ⟨_, hupdate, ?_⟩
    have hsm : (fun j => w j / (normXw / sqrtn)) = (sqrtn / normXw) • w := by
      funext j
      simp only [Pi.smul_apply, smul_eq_mul, div_div_eq_mul_div]
      ring
    have hnormsq : ∀ {q : ℕ} (c : ℚ) (v : Fin q → ℚ),
        normSq (c • v) = c ^ 2 * normSq v := by
      intro q c v
      simp [normSq, Pi.smul_apply, smul_eq_mul, mul_pow, Finset.mul_sum]
    rw [hsm, Matrix.mulVec_smul, hnormsq, ← hnorm, div_pow,
      div_mul_cancel₀ _ (pow_ne_zero 2 hnz)]
    exact hsq

/-- Witness for C4 at a concrete input: `n = 4` rows, one feature, solver
output `3`, `‖X @ w‖ = 3` and `sqrt(n) = 2`; the rescaled weight's
projected squared norm is `4`. -/
theorem sumcor_update_amended_witness :
    ∃ w', updateViewSumcor cxView4 (fun _ => (3 : ℚ)) 3 2 = .ok w' ∧
      normSq (cxView4.mulVec w') = ((4 : ℕ) : ℚ) :=
  sumcor_update_amended.2 cxView4 (fun _ => (3 : ℚ)) 3 2
    (by simp [isAllZero]) (by norm_num)
    (by simp [normSq, Matrix.mulVec, Matrix.dotProduct, cxView4,
          Fin.sum_univ_four, Fin.sum_univ_one])
    (by norm_num)

/-- C5 counterexample: a state whose scores contain NaN is not aborted:
the embedded `_inner_iteration` silently skips all three per-view updates
(the update counter stays at 0) and returns normally — no
`DegenerateWeightsError`, no exception at all. -/
theorem nan_skip_counterexample :
    altInnerIteration (fun _ => true) (fun s => s) (fun s _ => s + 1) 3 (0 : ℕ) = 0 := rfl

/-- C5 amended: the elastic SUMCOR branch hard-fails on an all-zero
weight update, but the AltMaxVar inner loop's `_inner_iteration` never
raises on NaN: while the scores contain NaN it skips every per-view
update of the sweep, returning the state unchanged except for the target
recompute, and the outer loop continues. -/
theorem nan_policy_amended :
    (∀ {σ : Type} (hasNaN : σ → Bool) (updateTarget : σ → σ)
        (updateView : σ → ℕ → σ) (nviews : ℕ) (s : σ),
        (∀ st, hasNaN st = true) →
        altInnerIteration hasNaN updateTarget updateView nviews s = updateTarget s) ∧
    (∀ {n p : ℕ} (X : Mat n p) (w : Fin p → ℚ) (normXw sqrtn : ℚ),
        isAllZero w = true →
        updateViewSumcor X w normXw sqrtn = .error .degenerateWeightsError) := by
  constructor
  · intro σ hasNaN updateTarget updateView nviews s hAll
    have haux : ∀ (l : List ℕ) (st : σ),
        l.foldl (fun st i => if hasNaN st then st else updateView st i) st = st := by
      intro l
      induction l with
      | nil => intro st; rfl
      | cons hd tl ih =>
          intro st
          rw [List.foldl_cons, if_pos (by rw [hAll st])]
          exact ih st
    exact haux _ _
  · intro n p X w normXw sqrtn hz
    simp [updateViewSumcor, checkConvergedWeights, hz]

/-- Witness for C5 at a concrete input: with an always-NaN state over `ℕ`
the sweep leaves the state at the target-recompute result, and an all-zero
solver output makes the elastic update raise. -/
theorem nan_policy_amended_witness :
    altInnerIteration (fun _ => true) (fun s => s + 7) (fun s _ => s + 100) 2 5 = 5 + 7 ∧
    updateViewSumcor (0 : Mat 1 1) (fun _ => (0 : ℚ)) 0 1
      = .error .degenerateWeightsError :=
  ⟨nan_policy_amended.1 (fun _ => true) (fun s => s + 7) (fun s _ => s + 100) 2 5
      (fun _ => rfl),
   nan_policy_amended.2 (0 : Mat 1 1) (fun _ => (0 : ℚ)) 0 1 (by simp [isAllZero])⟩

/-- First pass of a sub-loop (`prev_weights is None`): no stop check. -/
lemma altSubLoop_succ_notPrev {n p k : ℕ} (view : Mat n p) (G : Mat n k)
    (lr : ℚ) (prox : Mat p k → ℚ → Mat p k) (r : ℕ) (w : Mat p k) :
    altSubLoop view G lr prox (r + 1) false w
      = altSubLoop view G lr prox r true (prox (altGradStep view G lr w) lr) := by
  simp [altSubLoop]

/-- A later pass whose `np.allclose` check fires stops the sub-loop. -/
lemma altSubLoop_succ_stop {n p k : ℕ} (view : Mat n p) (G : Mat n k)
    (lr : ℚ) (prox : Mat p k → ℚ → Mat p k) (r : ℕ) (w : Mat p k)
    (h : npAllclose npRtol npAtol (prox (altGradStep view G lr w) lr)
        (altGradStep view G lr w) = true) :
    altSubLoop view G lr prox (r + 1) true w
      = (prox (altGradStep view G lr w) lr, true) := by
  simp [altSubLoop, h]

/-- `np.allclose` holds reflexively for nonnegative tolerances. -/
lemma npAllclose_self {n p : ℕ} (rtol atol : ℚ) (hr : 0 ≤ rtol)
    (ha : 0 ≤ atol) (A : Mat n p) : npAllclose rtol atol A A = true := by
  simp only [npAllclose, decide_eq_true_eq]
  intro i j
  rw [sub_self, abs_zero]
  exact add_nonneg ha (mul_nonneg hr (abs_nonneg _))

/-- `np.allclose` on constant 1×1 matrices is the scalar check. -/
lemma npAllclose_cxc (rtol atol a b : ℚ) :
    npAllclose rtol atol (cxc a) (cxc b) = decide (|a - b| ≤ atol + rtol * |b|) := by
  unfold npAllclose
  rw [decide_eq_decide]
  constructor
  · intro h
    simpa [cxc] using h 0 0
  · intro h i j
    simpa [cxc] using h

/-- The gradient step on constant 1×1 data is the scalar formula. -/
lemma altGradStep_cxc (x g lr w : ℚ) :
    altGradStep (cxc x) (cxc g) lr (cxc w) = cxc (w - lr * (x * (x * w - g))) := by
  ext i j
  simp only [altGradStep, cxc, Matrix.sub_apply, Matrix.smul_apply, Matrix.mul_apply,
    Matrix.transpose_apply, Matrix.of_apply, Fin.sum_univ_one, smul_eq_mul]

/-- A sweep step entered with the `converged` flag set copies the weights. -/
lemma altSweepStep_true {n p k : ℕ} (lr : ℚ) (T : ℕ) (G : Mat n k)
    (ws : List (Mat p k)) (item : AltViewItem n p k) :
    altSweepStep lr T G (ws, true) item = (ws ++ [item.w], true) := by
  simp [altSweepStep]

/-- A sweep step entered with the flag clear runs the view's sub-loop. -/
lemma altSweepStep_false {n p k : ℕ} (lr : ℚ) (T : ℕ) (G : Mat n k)
    (ws : List (Mat p k)) (item : AltViewItem n p k) :
    altSweepStep lr T G (ws, false) item
      = (ws ++ [(altSubLoop item.view G lr item.prox T false item.w).1],
         (altSubLoop item.view G lr item.prox T false item.w).2) := by
  simp [altSweepStep]

/-- Once the shared flag is set, the rest of the sweep copies all
remaining views' weights unchanged. -/
lemma altSweep_foldl_true {n p k : ℕ} (lr : ℚ) (T : ℕ) (G : Mat n k) :
    ∀ (l : List (AltViewItem n p k)) (ws : List (Mat p k)),
      l.foldl (altSweepStep lr T G) (ws, true)
        = (ws ++ l.map (fun it => it.w), true) := by
  intro l
  induction l with
  | nil => intro ws; simp
  | cons hd tl ih =>
      intro ws
      rw [List.foldl_cons, altSweepStep_true, ih]
      simp

/-- Evaluation of the first concrete sub-loop: view `1`, target `2`,
learning rate `1/2`, identity prox, budget `3`, start `1`.  The iterates
are `1 → 3/2 → 7/4`; the second pass stops because the identity prox
returns its input, which `prev_weights` aliases. -/
lemma altSubLoop_run_w0 :
    altSubLoop (cxc 1) (cxc 2) (1 / 2) proxIdentity 3 false (cxc 1)
      = (cxc (7 / 4), true) := by
  have e1 : altGradStep (cxc 1) (cxc 2) (1 / 2) (cxc 1) = cxc (3 / 2) := by
    rw [altGradStep_cxc, show (1 : ℚ) - 1 / 2 * (1 * (1 * 1 - 2)) = 3 / 2 by norm_num]
  have e2 : altGradStep (cxc 1) (cxc 2) (1 / 2) (cxc (3 / 2)) = cxc (7 / 4) := by
    rw [altGradStep_cxc, show (3 : ℚ) / 2 - 1 / 2 * (1 * (1 * (3 / 2) - 2)) = 7 / 4 by norm_num]
  have hstop : npAllclose npRtol npAtol
      (proxIdentity (altGradStep (cxc 1) (cxc 2) (1 / 2) (cxc (3 / 2))) (1 / 2))
      (altGradStep (cxc 1) (cxc 2) (1 / 2) (cxc (3 / 2))) = true := by
    simp only [proxIdentity]
    exact npAllclose_self _ _ (by norm_num [npRtol]) (by norm_num [npAtol]) _
  rw [show (3 : ℕ) = 2 + 1 from rfl, altSubLoop_succ_notPrev]
  simp only [proxIdentity]
  rw [e1, show (2 : ℕ) = 1 + 1 from rfl, altSubLoop_succ_stop _ _ _ _ _ _ hstop]
  simp only [proxIdentity]
  rw [e2]

/-- Evaluation of the second concrete sub-loop on its own: same data,
start `5`.  The iterates are `5 → 7/2 → 11/4`, and the loop reports
convergence at the second pass even though `7/2` and `11/4` are far
apart. -/
lemma altSubLoop_run_w1 :
    altSubLoop (cxc 1) (cxc 2) (1 / 2) proxIdentity 3 false (cxc 5)
      = (cxc (11 / 4), true) := by
  have e1 : altGradStep (cxc 1) (cxc 2) (1 / 2) (cxc 5) = cxc (7 / 2) := by
    rw [altGradStep_cxc, show (5 : ℚ) - 1 / 2 * (1 * (1 * 5 - 2)) = 7 / 2 by norm_num]
  have e2 : altGradStep (cxc 1) (cxc 2) (1 / 2) (cxc (7 / 2)) = cxc (11 / 4) := by
    rw [altGradStep_cxc, show (7 : ℚ) / 2 - 1 / 2 * (1 * (1 * (7 / 2) - 2)) = 11 / 4 by norm_num]
  have hstop : npAllclose npRtol npAtol
      (proxIdentity (altGradStep (cxc 1) (cxc 2) (1 / 2) (cxc (7 / 2))) (1 / 2))
      (altGradStep (cxc 1) (cxc 2) (1 / 2) (cxc (7 / 2))) = true := by
    simp only [proxIdentity]
    exact npAllclose_self _ _ (by norm_num [npRtol]) (by norm_num [npAtol]) _
  rw [show (3 : ℕ) = 2 + 1 from rfl, altSubLoop_succ_notPrev]
  simp only [proxIdentity]
  rw [e1, show (2 : ℕ) = 1 + 1 from rfl, altSubLoop_succ_stop _ _ _ _ _ _ hstop]
  simp only [proxIdentity]
  rw [e2]

/-- C1 counterexample: two views with view matrix `[[1]]`, target `[[2]]`,
learning rate `1/2`, identity prox (`L1` with `sigma = tau = 0`), budget
`T = 3`, starting weights `1` and `5`.  View 0's sub-loop stops early, and
the sweep then leaves view 1's weights at `5` — its sub-loop runs zero
passes — although view 1's own sub-loop would have moved its weights to
`11/4 ≠ 5`.  Moreover view 1's standalone sub-loop reports convergence
even though its successive post-prox iterates `7/2` and `11/4` are not
`np.allclose`: the stop check fires on the aliased pre-prox array, not on
successive iterates. -/
theorem altmaxvar_shared_flag_counterexample :
    altTrainingStepSweep (1 / 2) 3
        [⟨cxc 1, proxIdentity, cxc 1⟩, ⟨cxc 1, proxIdentity, cxc 5⟩] (cxc 2)
      = ([cxc (7 / 4), cxc 5], true) ∧
    altSubLoop (cxc 1) (cxc 2) (1 / 2) proxIdentity 3 false (cxc 5)
      = (cxc (11 / 4), true) ∧
    npAllclose npRtol npAtol (cxc (11 / 4)) (cxc (7 / 2)) = false ∧
    cxc (11 / 4) ≠ cxc 5 := by
  refine ⟨?_, altSubLoop_run_w1, ?_, ?_⟩
  · unfold altTrainingStepSweep
    rw [List.foldl_cons, altSweepStep_false]
    simp only [altSubLoop_run_w0]
    rw [List.foldl_cons, altSweepStep_true, List.foldl_nil]
    simp
  · rw [npAllclose_cxc, show (11 : ℚ) / 4 - 7 / 2 = -(3 / 4) by norm_num, abs_neg,
      abs_of_nonneg (by norm_num : (0 : ℚ) ≤ 3 / 4),
      abs_of_nonneg (by norm_num : (0 : ℚ) ≤ 7 / 2)]
    simp only [decide_eq_false_iff_not, npAtol, npRtol]
    norm_num
  · intro h
    have h00 := congrFun (congrFun h 0) 0
    norm_num [cxc, Matrix.of_apply] at h00

/-- C1 amended: each view's sub-loop runs up to `T` gradient-plus-prox
passes, but (a) the `converged` flag is shared across the sweep — as soon
as the leading view's sub-loop stops early, every later view's weights
pass through unchanged, its sub-loop running zero passes — and (b) from
the second pass on, a sub-loop stops exactly when the post-prox weights
are `np.allclose` to the same pass's gradient-stepped pre-prox weights
(the array `prev_weights` aliases after the in-place update), not to the
previous iterate. -/
theorem altmaxvar_subloop_amended :
    (∀ {n p k : ℕ} (lr : ℚ) (T : ℕ) (G : Mat n k) (item : AltViewItem n p k)
        (rest : List (AltViewItem n p k)),
        (altSubLoop item.view G lr item.prox T false item.w).2 = true →
        altTrainingStepSweep lr T (item :: rest) G
          = ((altSubLoop item.view G lr item.prox T false item.w).1
              :: rest.map (fun it => it.w), true)) ∧
    (∀ {n p k : ℕ} (view : Mat n p) (G : Mat n k) (lr : ℚ)
        (prox : Mat p k → ℚ → Mat p k) (r : ℕ) (w : Mat p k),
        npAllclose npRtol npAtol (prox (altGradStep view G lr w) lr)
            (altGradStep view G lr w) = true →
        altSubLoop view G lr prox (r + 1) true w
          = (prox (altGradStep view G lr w) lr, true)) := by
  constructor
  · intro n p k lr T G item rest h
    unfold altTrainingStepSweep
    rw [List.foldl_cons, altSweepStep_false, h, altSweep_foldl_true]
    simp
  · intro n p k view G lr prox r w h
    exact altSubLoop_succ_stop view G lr prox r w h

/-- Witness for C1 at concrete inputs: view 0's sub-loop converges, the
sweep conclusion holds for it, and a sub-loop pass with a firing
`np.allclose` check stops immediately. -/
theorem altmaxvar_subloop_amended_witness :
    altTrainingStepSweep (1 / 2) 3
        [⟨cxc 1, proxIdentity, cxc 1⟩, ⟨cxc 1, proxIdentity, cxc 5⟩] (cxc 2)
      = ((altSubLoop (cxc 1) (cxc 2) (1 / 2) proxIdentity 3 false (cxc 1)).1
          :: [(⟨cxc 1, proxIdentity, cxc 5⟩ : AltViewItem 1 1 1)].map (fun it => it.w),
         true) ∧
    altSubLoop (cxc 1) (cxc 2) (1 / 2) proxIdentity (0 + 1) true (cxc 1)
      = (proxIdentity (altGradStep (cxc 1) (cxc 2) (1 / 2) (cxc 1)) (1 / 2), true) :=
  ⟨altmaxvar_subloop_amended.1 (1 / 2) 3 (cxc 2) ⟨cxc 1, proxIdentity, cxc 1⟩
      [⟨cxc 1, proxIdentity, cxc 5⟩] (by rw [altSubLoop_run_w0]),
   altmaxvar_subloop_amended.2 (cxc 1) (cxc 2) (1 / 2) proxIdentity 0 (cxc 1)
      (by simp only [proxIdentity]
          exact npAllclose_self _ _ (by norm_num [npRtol]) (by norm_num [npAtol]) _)⟩

end CcaZoo
